import Mathlib

/-!
Shallow embedding of the playback-control core of the Personal DJ
repository: the `MusicAgent` class of `src/agents/music_agent.py` and the
`MusicSourceDetector` class of `src/core/music_source_detector.py`.

Modelling conventions.  Python strings are Lean `String`; Python `None` for
optional fields is `Option`.  The OS process table is a list `live` of
pids of running player processes together with the agent handle
`process : Option Nat`; the Python test `self.process.poll() is None`
becomes membership of the handle pid in `live`.  The calls that the
agent would make to a registered `status_callback` are collected in an
event trace.  `subprocess.Popen` is modelled by a `SpawnEnv` value
telling whether the spawn raises and which fresh pid it yields on
success.  Filesystem existence (`os.path.exists` / `Path.exists`) is an
explicit function parameter `fsE`.  The simple regexes of
`_load_source_patterns` (all of the form `.*X.*`, `.*X$`) are embedded
as case-insensitive substring or suffix tests, and `urllib.parse` /
`pathlib` operations are embedded for the URL and POSIX path shapes the
detector handles (no percent-escapes; of the IPv6 bracket handling only
the bracket-balance validation of `urlsplit` is modelled).  `urllib`
raises ValueError on an unbalanced-bracket netloc and on a port that is
not a valid integer in range; `_detect_url_source` reads
`parsed_url.port` whenever a pattern matches, so classification can
raise — an `Except.error` value models the propagated ValueError.
-/

namespace PersonalDJ

/-- Tests whether the pattern occurs at the head of the character list. -/
def leadMatch : List Char → List Char → Bool
  | [], _ => true
  | _ :: _, [] => false
  | a :: as, b :: bs => a == b && leadMatch as bs

/-- Substring occurrence of `pat` anywhere in the character list. -/
def hasSub (pat : List Char) : List Char → Bool
  | [] => leadMatch pat []
  | b :: bs => leadMatch pat (b :: bs) || hasSub pat bs

/-- Python `s.startswith(pat)`. -/
def strStarts (s pat : String) : Bool := leadMatch pat.data s.data

/-- Python `pat in s` (substring containment). -/
def strHas (s pat : String) : Bool := hasSub pat.data s.data

/-- Python `s.endswith(pat)`; embeds the anchored regexes
`.*\.m3u8?$` and `.*\.pls$`. -/
def strEnds (s pat : String) : Bool := leadMatch pat.data.reverse s.data.reverse

/-- ASCII lowercasing of one character, as Python `str.lower` acts on the
ASCII inputs the detector handles. -/
def chLower (c : Char) : Char :=
  if 65 ≤ c.toNat ∧ c.toNat ≤ 90 then Char.ofNat (c.toNat + 32) else c

/-- Python `s.lower()` for ASCII strings. -/
def strLower (s : String) : String := String.mk (s.data.map chLower)

/-- Splits a character list at every occurrence of the separator
character, like Python `str.split(sep)`. -/
def chSplit (sep : Char) : List Char → List (List Char)
  | [] => [[]]
  | c :: cs =>
    let r := chSplit sep cs
    if c == sep then [] :: r
    else
      match r with
      | [] => [[c]]
      | h :: t => (c :: h) :: t

/-- Splits a character list at the first occurrence of `pat`, returning
the pieces before and after it, or `none` when `pat` does not occur. -/
def breakAt (pat : List Char) : List Char → Option (List Char × List Char)
  | [] => if leadMatch pat [] then some ([], []) else none
  | c :: cs =>
    if leadMatch pat (c :: cs) then some ([], (c :: cs).drop pat.length)
    else
      match breakAt pat cs with
      | some (a, b) => some (c :: a, b)
      | none => none

/-- Index of the last occurrence of a character in a list, if any. -/
def lastIdxOf (c : Char) : List Char → Option Nat
  | [] => none
  | a :: as =>
    match lastIdxOf c as with
    | some i => some (i + 1)
    | none => if a == c then some 0 else none

/-- Parts of a POSIX-style path, following pathlib `PurePosixPath.parts`:
a leading slash is its own part, empty and single-dot segments drop. -/
def pathParts (p : String) : List String :=
  let segs := ((chSplit '/' p.data).map String.mk).filter (fun s => s != "" && s != ".")
  if strStarts p "/" then "/" :: segs else segs

/-- pathlib `Path(p).name`. -/
def pathName (p : String) : String :=
  match (pathParts p).getLast? with
  | some s => if s = "/" then "" else s
  | none => ""

/-- pathlib `Path(p).suffix`: the final extension of the last component,
dot included; empty for dotless names, leading-dot names, trailing dots. -/
def pathSuffix (p : String) : String :=
  let cs := (pathName p).data
  match lastIdxOf '.' cs with
  | some i => if 0 < i ∧ i < cs.length - 1 then String.mk (cs.drop i) else ""
  | none => ""

/-- String rendering of a parts list, as `str(PurePosixPath(...))`. -/
def joinParts : List String → String
  | [] => "."
  | ["/"] => "/"
  | "/" :: rest => "/" ++ String.intercalate "/" rest
  | parts => String.intercalate "/" parts

/-- Python `str(Path(p).parent)`. -/
def pathDirname (p : String) : String := joinParts (pathParts p).dropLast

/-- Splits an absolute URL into its netloc and the part following it,
following `urllib.parse.urlsplit` for URLs of the form `scheme://...`. -/
def urlNetlocRest (u : String) : String × String :=
  match breakAt "://".data u.data with
  | some (_, rest) =>
    let nl := rest.takeWhile (fun c => c != '/' && c != '?' && c != '#')
    (String.mk nl, String.mk (rest.drop nl.length))
  | none => ("", u)

/-- Host info of the netloc: the part after the userinfo `@`, if any. -/
def urlHostinfo (u : String) : List Char :=
  let nl := (urlNetlocRest u).1.data
  match lastIdxOf '@' nl with
  | some i => nl.drop (i + 1)
  | none => nl

/-- urllib `parsed.hostname or ""`: the lowercased host part before any
port separator. -/
def urlHost (u : String) : String :=
  strLower (String.mk ((urlHostinfo u).takeWhile (fun c => c != ':')))

/-- Decimal digit characters of a natural number, with fuel. -/
def natDigitsAux : Nat → Nat → List Char
  | 0, _ => []
  | f + 1, n =>
    if n < 10 then [Char.ofNat (48 + n)]
    else natDigitsAux f (n / 10) ++ [Char.ofNat (48 + n % 10)]

/-- Python `str(n)` for a natural number. -/
def natStr (n : Nat) : String := String.mk (natDigitsAux (n + 1) n)

/-- Numeric value of a list of ASCII digits. -/
def digitsVal (cs : List Char) : Nat :=
  cs.foldl (fun a c => a * 10 + (c.toNat - 48)) 0

/-- Raw port field of the netloc: the characters after the first colon
of the host info; none when there is no colon or nothing follows it,
following urllib `_hostinfo` (an empty port is treated as absent). -/
def urlPortRaw (u : String) : Option (List Char) :=
  match (urlHostinfo u).dropWhile (fun c => c != ':') with
  | [] => none
  | _ :: [] => none
  | _ :: pcs => some pcs

/-- urllib `SplitResult.port`: none when the port is absent, its numeric
value when it is a string of ASCII digits whose value is at most 65535,
and a ValueError — modelled as `Except.error` — otherwise (tolerances
of Python `int()` such as signs, blanks, underscores or non-ASCII
digits are not modelled). -/
def urlPortVal (u : String) : Except Unit (Option Nat) :=
  match urlPortRaw u with
  | none => Except.ok none
  | some pcs =>
    if pcs.all (fun c => c.isDigit) then
      if digitsVal pcs ≤ 65535 then Except.ok (some (digitsVal pcs))
      else Except.error ()
    else Except.error ()

/-- The bracket-balance validation of urllib `urlsplit`: a netloc with
an opening bracket and no closing one, or the reverse, raises
`ValueError: Invalid IPv6 URL` (the bracketed-host content validation
of newer CPython is not modelled). -/
def urlBracketsBad (u : String) : Bool :=
  let nl := (urlNetlocRest u).1.data
  (nl.contains '[' && !nl.contains ']') || (nl.contains ']' && !nl.contains '[')

/-- The port entry of the details dict:
`str(parsed_url.port) if parsed_url.port else "default"`; a port of
value 0 is falsy in Python and also yields "default". -/
def portDetailStr : Option Nat → String
  | some n => if n = 0 then "default" else natStr n
  | none => "default"

/-- Query string of a URL: the part after the first `?`, fragment
stripped, as in `urllib.parse.urlparse(u).query`. -/
def urlQuery (u : String) : String :=
  let rest := (urlNetlocRest u).2.data.takeWhile (fun c => c != '#')
  match breakAt ['?'] rest with
  | some (_, q) => String.mk q
  | none => ""

/-- urllib `parse_qsl` restricted to unescaped queries: splits on `&` and
drops pieces without `=` or with an empty value (keep_blank_values is
False). -/
def qsPairs (q : String) : List (String × String) :=
  (chSplit '&' q.data).filterMap (fun piece =>
    match breakAt ['='] piece with
    | some (k, v) => if v = [] then none else some (String.mk k, String.mk v)
    | none => none)

/-- First value bound to `key`, i.e. `parse_qs(q)[key][0]` when the key is
present. -/
def qsFirst (q key : String) : Option String :=
  ((qsPairs q).find? (fun kv => kv.1 == key)).map (fun kv => kv.2)

/-- The `MusicSource` dataclass of `music_source_detector.py`; `details`
is the Python dict as an association list in insertion order. -/
structure MusicSource where
  source_type : String
  source_name : String
  player : String
  details : List (String × String)
  icon : String
  deriving DecidableEq

/-- Dict lookup in the `details` association list of a source. -/
def detailOf (m : MusicSource) (k : String) : Option String :=
  ((m.details).find? (fun kv => kv.1 == k)).map (fun kv => kv.2)

/-- The four navidrome url_patterns of `_load_source_patterns`, each a
regex of the form `.*X.*` matched with re.IGNORECASE, embedded as
lowercased substring tests. -/
def navMatch (u : String) : Bool :=
  let l := strLower u
  strHas l "navidrome" || strHas l "/rest/stream" || strHas l "/api/stream" || strHas l ":4533"

/-- The spotify url_patterns. -/
def spotifyMatch (u : String) : Bool :=
  let l := strLower u
  strHas l "spotify.com" || strHas l "open.spotify.com"

/-- The youtube url_patterns. -/
def youtubeMatch (u : String) : Bool :=
  let l := strLower u
  strHas l "youtube.com" || strHas l "youtu.be" || strHas l "youtube-nocookie.com"

/-- The soundcloud url_pattern. -/
def soundcloudMatch (u : String) : Bool :=
  let l := strLower u
  strHas l "soundcloud.com"

/-- The radio_stream url_patterns: the anchored `.*\.m3u8?$` and
`.*\.pls$` become suffix tests, the rest substring tests. -/
def radioMatch (u : String) : Bool :=
  let l := strLower u
  strEnds l ".m3u" || strEnds l ".m3u8" || strEnds l ".pls" || strHas l "radio" || strHas l "stream"

/-- The `source_patterns` table in dict insertion order:
(source_type, url-pattern test, icon, name). -/
def source_patterns : List (String × (String → Bool) × String × String) :=
  [("navidrome", navMatch, "🎵", "Navidrome Server"),
   ("spotify", spotifyMatch, "🎧", "Spotify"),
   ("youtube", youtubeMatch, "📺", "YouTube"),
   ("soundcloud", soundcloudMatch, "☁️", "SoundCloud"),
   ("radio_stream", radioMatch, "📻", "Radio Stream")]

/-- The audio file extensions of `self.file_extensions`. -/
def audioExts : List String :=
  [".mp3", ".flac", ".wav", ".ogg", ".m4a", ".aac", ".wma", ".opus"]

/-- The playlist file extensions of `self.file_extensions`. -/
def playlistExts : List String := [".m3u", ".m3u8", ".pls", ".xspf"]

/-- MusicSourceDetector._extract_navidrome_details. -/
def extract_navidrome_details (url : String) : List (String × String) :=
  let q := urlQuery url
  (match qsFirst q "id" with | some v => [("track_id", v)] | none => []) ++
  (match qsFirst q "u" with | some v => [("username", v)] | none => []) ++
  (match qsFirst q "c" with | some v => [("client", v)] | none => []) ++
  (if strHas url "/rest/" then [("api_version", "Subsonic API")]
   else if strHas url "/api/" then [("api_version", "Native API")] else [])

/-- MusicSourceDetector._detect_url_source: the first matching pattern
in `source_patterns` wins; no match yields the generic stream_url
source.  `urlparse` validates the netloc brackets before anything else;
`parsed_url.port` is only read — and can only raise — inside a pattern
match, so the generic fallback never touches the port.  An
`Except.error` stands for the ValueError that propagates to the
caller. -/
def detect_url_source (url player : String) : Except Unit MusicSource :=
  if urlBracketsBad url then Except.error ()
  else
    let hostname := urlHost url
    match source_patterns.find? (fun pc => pc.2.1 url) with
    | some pc =>
      match urlPortVal url with
      | Except.error _ => Except.error ()
      | Except.ok portv =>
        let base := [("url", url), ("hostname", hostname), ("port", portDetailStr portv)]
        let details :=
          if pc.1 = "navidrome" then base ++ extract_navidrome_details url else base
        Except.ok ⟨pc.1, pc.2.2.2, player, details, pc.2.2.1⟩
    | none =>
      Except.ok ⟨"stream_url", "Stream (" ++ hostname ++ ")", player,
       [("url", url), ("hostname", hostname)], "🌐"⟩

/-- The music_indicators list of `_guess_local_source_name`. -/
def music_indicators : List String :=
  ["music", "audio", "songs", "tracks", "library", "collection"]

/-- The parts loop of `_guess_local_source_name`: the first part that
contains a music indicator and is not the last part selects the part
after it. -/
def guessScan : List String → Option String
  | [] => none
  | [_] => none
  | p :: q :: rest =>
    if music_indicators.any (fun ind => strHas (strLower p) ind) then some q
    else guessScan (q :: rest)

/-- MusicSourceDetector._guess_local_source_name. -/
def guess_local_source_name (file_path : String) : String :=
  let parts := pathParts file_path
  match guessScan parts with
  | some nxt => "Local Music (" ++ nxt ++ ")"
  | none =>
    if parts.contains "Users" || parts.contains "home" then "Personal Music Library"
    else
      match parts with
      | p0 :: _ => if strHas p0 ":" then "Local Files (" ++ p0 ++ ")" else "Local File"
      | [] => "Local File"

/-- MusicSourceDetector._detect_local_source; `fsE` stands in for
`Path(file_path).exists()`. -/
def detect_local_source (fsE : String → Bool) (file_path player : String) : MusicSource :=
  let suf := strLower (pathSuffix file_path)
  let base := [("path", file_path), ("filename", pathName file_path),
               ("directory", pathDirname file_path),
               ("exists", if fsE file_path then "True" else "False")]
  let ftIcon :=
    if audioExts.contains suf then ("audio", "🎵")
    else if playlistExts.contains suf then ("playlist", "📋")
    else ("unknown", "📄")
  ⟨"local_file", guess_local_source_name file_path, player,
   base ++ [("file_type", ftIcon.1)], ftIcon.2⟩

/-- MusicSourceDetector.detect_source; `fsE` stands in for
`os.path.exists`.  Only the URL branch can raise (through `urlparse`
and `parsed_url.port`); every other branch returns a descriptor. -/
def detect_source (fsE : String → Bool) (track_path player : String) :
    Except Unit MusicSource :=
  if track_path = "" then
    Except.ok ⟨"unknown", "Unknown Source", player, [], "❓"⟩
  else if strStarts track_path "http://" || strStarts track_path "https://" then
    detect_url_source track_path player
  else if fsE track_path || strStarts track_path "/" || strStarts track_path "C:" ||
      strStarts track_path "\\" || strStarts track_path "./" then
    Except.ok (detect_local_source fsE track_path player)
  else
    Except.ok ⟨"unknown", "Unknown Source", player, [("path", track_path)], "❓"⟩

/-- Status events: the `(status, value)` pairs that MusicAgent passes to a
registered status_callback. -/
inductive Event where
  | playing (title : Option String)
  | paused
  | stopped
  | finished
  | volumeChanged (level : Int)
  deriving DecidableEq

/-- The mutable fields of a MusicAgent instance, together with the list
`live` of pids of running player processes standing in for the OS
process table. -/
structure MusicState where
  live : List Nat
  process : Option Nat
  current_track : Option String
  current_track_title : Option String
  current_source : Option MusicSource
  is_playing : Bool
  is_paused : Bool
  volume : Int
  position : Nat
  duration : Nat
  stop_monitoring : Bool
  player_executable : Option String
  deriving DecidableEq

/-- Python `self.process and self.process.poll() is None`: the handle
exists and still names a running process. -/
def procAlive (s : MusicState) : Bool :=
  match s.process with
  | some p => s.live.contains p
  | none => false

/-- MusicAgent.stop.  The source sets `_stop_monitoring`, then — only if
the handle exists and `poll()` is None — terminates and waits on the
process and clears the handle, then always resets the flags, track
fields and position and emits a stopped event.  The dead-handle branch
keeps the stale handle, matching the source where `self.process = None`
sits inside the live branch only.  Here the branch on the poll test is
lifted to the top; the field writes are the same in each branch. -/
def stop (s : MusicState) : MusicState × List Event :=
  match s.process with
  | some p =>
    if s.live.contains p then
      ({ s with stop_monitoring := true, live := s.live.erase p, process := none,
                is_playing := false, is_paused := false, current_track := none,
                current_track_title := none, current_source := none, position := 0 },
       [Event.stopped])
    else
      ({ s with stop_monitoring := true, is_playing := false, is_paused := false,
                current_track := none, current_track_title := none,
                current_source := none, position := 0 },
       [Event.stopped])
  | none =>
    ({ s with stop_monitoring := true, is_playing := false, is_paused := false,
              current_track := none, current_track_title := none,
              current_source := none, position := 0 },
     [Event.stopped])

/-- Outcome of the `subprocess.Popen` call inside play_track: whether the
spawn raises, and the pid of the fresh process when it succeeds. -/
structure SpawnEnv where
  ok : Bool
  pid : Nat
  deriving DecidableEq

/-- Python `track_title or track_path` of play_track: an absent or
empty title falls back to the path. -/
def resolved_title (track_title : Option String) (track_path : String) : String :=
  match track_title with
  | some t => if t = "" then track_path else t
  | none => track_path

/-- Return value, post-state and emitted events of a play_track call;
`raised` is true when the call would propagate the ValueError of source
classification instead of returning (`ret` is meaningless then). -/
structure PlayResult where
  ret : Bool
  state : MusicState
  events : List Event
  raised : Bool
  deriving DecidableEq

/-- MusicAgent.play_track.  A live old process is stopped first; the
track URI and title are written, then the source is classified (a
ValueError here propagates: the detector call at line 60 sits outside
the try block, which only wraps the spawn), then the spawn is
attempted, matching the source order, so the track fields survive a
spawn failure. -/
def play_track (fsE : String → Bool) (s : MusicState) (track_path : String)
    (track_title : Option String) (env : SpawnEnv) : PlayResult :=
  let pre := if procAlive s then stop s else (s, [])
  let s1 := pre.1
  let evs1 := pre.2
  if s1.player_executable = none then ⟨false, s1, evs1, false⟩
  else if track_path = "" then ⟨false, s1, evs1, false⟩
  else
    let title := resolved_title track_title track_path
    let s2a : MusicState :=
      { s1 with current_track := some track_path, current_track_title := some title }
    match detect_source fsE track_path (s1.player_executable.getD "unknown") with
    | Except.error _ => ⟨false, s2a, evs1, true⟩
    | Except.ok src =>
      let s2 : MusicState := { s2a with current_source := some src }
      if env.ok then
        let s3 : MusicState :=
          { s2 with process := some env.pid, live := env.pid :: s2.live,
                    is_playing := true, is_paused := false, position := 0,
                    stop_monitoring := false }
        ⟨true, s3, evs1 ++ [Event.playing (some title)], false⟩
      else
        ⟨false, s2, evs1, false⟩

/-- MusicAgent.pause: the mpv branch and the fallback branch both set the
flag, emit the same event and return True; an invalid state returns
False with no mutation and no event. -/
def pause (s : MusicState) : Bool × MusicState × List Event :=
  if !s.is_playing || s.is_paused then (false, s, [])
  else (true, { s with is_paused := true }, [Event.paused])

/-- MusicAgent.resume; Python `if self.current_track` is falsy both for
None and for the empty string. -/
def resume (s : MusicState) : Bool × MusicState × List Event :=
  if !s.is_paused then (false, s, [])
  else
    match s.current_track with
    | some t =>
      if t = "" then (false, s, [])
      else (true, { s with is_paused := false }, [Event.playing s.current_track_title])
    | none => (false, s, [])

/-- MusicAgent.set_volume: clamps, stores, emits volume_changed and
returns the stored volume; the source has no state check at all. -/
def set_volume (s : MusicState) (volume : Int) : Int × MusicState × List Event :=
  let v := max 0 (min 100 volume)
  (v, { s with volume := v }, [Event.volumeChanged v])

/-- One iteration of the MusicAgent._monitor_playback loop; the Bool in
the result tells whether the loop continues to the next tick. -/
def monitor_tick (s : MusicState) : MusicState × List Event × Bool :=
  if s.stop_monitoring then (s, [], false)
  else
    match s.process with
    | none => (s, [], false)
    | some p =>
      if s.live.contains p then
        (if s.is_playing && !s.is_paused then { s with position := s.position + 1 } else s,
         [], true)
      else
        ({ s with is_playing := false, is_paused := false }, [Event.finished], false)

/-- The _monitor_playback loop run for at most `fuel` ticks, collecting
the emitted events. -/
def monitor_run : Nat → MusicState → MusicState × List Event
  | 0, s => (s, [])
  | n + 1, s =>
    let t := monitor_tick s
    if t.2.2 then
      let r := monitor_run n t.1
      (r.1, t.2.1 ++ r.2)
    else (t.1, t.2.1)

/-- A freshly constructed agent state: the constructor found mpv, nothing
is playing (the `__init__` defaults of MusicAgent). -/
def idleState : MusicState :=
  { live := [], process := none, current_track := none, current_track_title := none,
    current_source := none, is_playing := false, is_paused := false, volume := 70,
    position := 0, duration := 0, stop_monitoring := false,
    player_executable := some "mpv" }

/-- A state in which pid 3 is a live player process playing a track. -/
def liveState : MusicState :=
  { idleState with live := [3], process := some 3, current_track := some "a.mp3",
                   current_track_title := some "A", is_playing := true }

/-- A playing state whose player process has already exited: the handle
pid 1 is no longer in the live table. -/
def exitedState : MusicState :=
  { idleState with process := some 1, current_track := some "song.mp3",
                   current_track_title := some "Song", is_playing := true }

/-- Process-ownership invariant: every live player pid is the single one
the agent handle names, so at most one process is live and it is owned. -/
def ownedInvB (s : MusicState) : Bool :=
  match s.live, s.process with
  | [], _ => true
  | [p], some q => p == q
  | _, _ => false

/-- Under the ownership invariant, a state with no live handle has an
empty live-process table. -/
theorem live_nil_of_not_alive (s : MusicState) (hInv : ownedInvB s = true)
    (hA : procAlive s = false) : s.live = [] := by
  unfold ownedInvB at hInv
  unfold procAlive at hA
  cases hl : s.live with
  | nil => rfl
  | cons a t =>
    exfalso
    rw [hl] at hInv
    cases hp : s.process with
    | none => rw [hp] at hInv; cases t <;> simp at hInv
    | some q =>
      rw [hp] at hInv
      cases t with
      | cons b u => simp at hInv
      | nil =>
        have haq : a = q := by simpa using hInv
        rw [hp, hl, haq] at hA
        simp [List.contains] at hA

/-- Under the ownership invariant, stopping a state with a live process
empties the live table, clears the handle and emits one Stopped event. -/
theorem stop_of_alive (s : MusicState) (hInv : ownedInvB s = true)
    (hA : procAlive s = true) :
    (stop s).1.live = [] ∧ (stop s).1.process = none ∧ (stop s).2 = [Event.stopped] := by
  unfold procAlive at hA
  cases hp : s.process with
  | none => rw [hp] at hA; simp at hA
  | some q =>
    rw [hp] at hA
    have hq : s.live.contains q = true := hA
    have hl : s.live = [q] := by
      unfold ownedInvB at hInv
      cases hl : s.live with
      | nil => rw [hl] at hq; simp [List.contains] at hq
      | cons a t =>
        rw [hl, hp] at hInv
        cases t with
        | cons b u => simp at hInv
        | nil => have : a = q := by simpa using hInv
                 rw [this]
    simp [stop, hp, hl, List.contains]

/-- C1 counterexample: when the monitor observes the exit of the player
process of a playing session, exactly one Finished event is emitted but
the track fields are not cleared — trackURI keeps its old value instead
of being reset to null, contradicting the claim as stated. -/
theorem c1_finished_keeps_track_counterexample :
    (monitor_run 3 exitedState).2 = [Event.finished] ∧
    (monitor_run 3 exitedState).1.current_track = some "song.mp3" ∧
    ¬ (monitor_run 3 exitedState).1.current_track = none := by decide

/-- Unfolding equation for one step of the monitor loop. -/
theorem monitor_run_succ (n : Nat) (s : MusicState) :
    monitor_run (n + 1) s =
      if (monitor_tick s).2.2 then
        ((monitor_run n (monitor_tick s).1).1,
         (monitor_tick s).2.1 ++ (monitor_run n (monitor_tick s).1).2)
      else ((monitor_tick s).1, (monitor_tick s).2.1) := rfl

/-- C1 (amended): if the monitor loop runs on a state whose player
process has exited while monitoring is on and status is Playing, it
emits exactly one Finished event, stops looping, and resets the status
flags to the idle combination, while every other field — in particular
the track URI — keeps its previous value. -/
theorem c1_process_exit_one_finished (s : MusicState) (p : Nat) (n : Nat)
    (hProc : s.process = some p) (hDead : s.live.contains p = false)
    (hMon : s.stop_monitoring = false) (hPlay : s.is_playing = true) :
    monitor_run (n + 1) s =
      ({ s with is_playing := false, is_paused := false }, [Event.finished]) ∧
    (monitor_run (n + 1) s).1.current_track = s.current_track := by
  have hDead' : p ∉ s.live := by simpa using hDead
  have ht : monitor_tick s =
      ({ s with is_playing := false, is_paused := false }, [Event.finished], false) := by
    simp [monitor_tick, hMon, hProc, hDead']
  rw [monitor_run_succ, ht]
  simp

/-- C1 witness: the amended theorem evaluated on the concrete exited
playing state. -/
theorem c1_process_exit_one_finished_witness :
    monitor_run 3 exitedState =
      ({ exitedState with is_playing := false, is_paused := false }, [Event.finished]) ∧
    (monitor_run 3 exitedState).1.current_track = exitedState.current_track :=
  c1_process_exit_one_finished exitedState 1 2 (by decide) (by decide) (by decide) (by decide)

/-- C3: stop is idempotent and total — it always emits exactly one
Stopped event, resets the status flags, clears the track fields and the
position, and running it a second time returns the very same state and
the same single Stopped event. -/
theorem c3_stop_idempotent (s : MusicState) :
    (stop s).2 = [Event.stopped] ∧
    (stop s).1.is_playing = false ∧ (stop s).1.is_paused = false ∧
    (stop s).1.current_track = none ∧ (stop s).1.current_track_title = none ∧
    (stop s).1.current_source = none ∧ (stop s).1.position = 0 ∧
    stop (stop s).1 = stop s := by
  cases hp : s.process with
  | none => simp only [stop, hp]; simp
  | some q =>
    cases hq : s.live.contains q with
    | true => simp only [stop, hp, hq]; simp [stop]
    | false =>
      have hq' : q ∉ s.live := by simpa using hq
      simp only [stop, hp, hq]; simp [stop, hq']

/-- C6: classifying the Navidrome streaming URL raises nothing and
yields the streaming server source type navidrome, with track_id 42 and
username alice among its detail attributes. -/
theorem c6_navidrome_url_classified :
    ∃ m, detect_source (fun _ => false)
        "https://myserver.local:4533/rest/stream?id=42&u=alice" "mpv" = Except.ok m ∧
      m.source_type = "navidrome" ∧
      detailOf m "track_id" = some "42" ∧
      detailOf m "username" = some "alice" := by
  refine ⟨_, rfl, ?_, ?_, ?_⟩ <;> decide

/-- C8: for every state and every integer level, set_volume stores the
level clamped into the range 0 to 100; in particular level -5 stores 0
and level 150 stores 100. -/
theorem c8_set_volume_clamps (s : MusicState) (v : Int) :
    (set_volume s v).2.1.volume = max 0 (min 100 v) ∧
    (set_volume s (-5)).2.1.volume = 0 ∧
    (set_volume s 150).2.1.volume = 100 := by
  refine ⟨rfl, ?_, ?_⟩ <;> norm_num [set_volume]

/-- C4 counterexample: a spawn failure on an idle agent returns false,
but the playback state does not remain unchanged — the track URI has
already been set to the requested track before the spawn was attempted,
contradicting the claim as stated. -/
theorem c4_spawn_failure_mutates_counterexample :
    (play_track (fun _ => false) idleState "song.mp3" none ⟨false, 1⟩).ret = false ∧
    idleState.current_track = none ∧
    (play_track (fun _ => false) idleState "song.mp3" none ⟨false, 1⟩).state.current_track
      = some "song.mp3" := by decide

/-- Characterization of stop on a state whose handle polls live, with
no invariant assumed. -/
theorem stop_alive_noinv (s : MusicState) (p : Nat) (hp : s.process = some p)
    (hq : s.live.contains p = true) :
    stop s = ({ s with
        stop_monitoring := true, live := s.live.erase p, process := none,
        is_playing := false, is_paused := false, current_track := none,
        current_track_title := none, current_source := none, position := 0 },
      [Event.stopped]) := by
  have hq' : p ∈ s.live := by simpa using hq
  simp [stop, hp, hq']

/-- C4 (amended): when play_track reaches the spawn (player binary
present, non-empty uri, classification succeeds) and the spawn fails,
it returns false without raising; trackURI, trackTitle and source have
already been overwritten with the requested track's values and the
stored volume is unchanged; if no process was live at the call, the
status flags, position, handle and live table are unchanged and no
event is emitted, while if a process was live it was stopped first —
one Stopped event was emitted, the handle cleared, the flags reset and
the position zeroed — before the failing spawn. -/
theorem c4_spawn_failure_state (fsE : String → Bool) (s : MusicState) (uri : String)
    (title : Option String) (pid : Nat) (src : MusicSource)
    (hP : ¬ s.player_executable = none) (hU : ¬ uri = "")
    (hD : detect_source fsE uri (s.player_executable.getD "unknown") = Except.ok src) :
    (play_track fsE s uri title ⟨false, pid⟩).ret = false ∧
    (play_track fsE s uri title ⟨false, pid⟩).raised = false ∧
    (play_track fsE s uri title ⟨false, pid⟩).state.current_track = some uri ∧
    (play_track fsE s uri title ⟨false, pid⟩).state.current_track_title
      = some (resolved_title title uri) ∧
    (play_track fsE s uri title ⟨false, pid⟩).state.current_source = some src ∧
    (play_track fsE s uri title ⟨false, pid⟩).state.volume = s.volume ∧
    (procAlive s = false →
      (play_track fsE s uri title ⟨false, pid⟩).state.is_playing = s.is_playing ∧
      (play_track fsE s uri title ⟨false, pid⟩).state.is_paused = s.is_paused ∧
      (play_track fsE s uri title ⟨false, pid⟩).state.position = s.position ∧
      (play_track fsE s uri title ⟨false, pid⟩).state.process = s.process ∧
      (play_track fsE s uri title ⟨false, pid⟩).state.live = s.live ∧
      (play_track fsE s uri title ⟨false, pid⟩).events = []) ∧
    (procAlive s = true →
      (play_track fsE s uri title ⟨false, pid⟩).events = [Event.stopped] ∧
      (play_track fsE s uri title ⟨false, pid⟩).state.process = none ∧
      (play_track fsE s uri title ⟨false, pid⟩).state.is_playing = false ∧
      (play_track fsE s uri title ⟨false, pid⟩).state.is_paused = false ∧
      (play_track fsE s uri title ⟨false, pid⟩).state.position = 0) := by
  by_cases hA : procAlive s = true
  · obtain ⟨p, hp, hq⟩ : ∃ p, s.process = some p ∧ s.live.contains p = true := by
      unfold procAlive at hA
      cases hp : s.process with
      | none => rw [hp] at hA; simp at hA
      | some p =>
        refine ⟨p, rfl, ?_⟩
        rw [hp] at hA
        exact hA
    have hstop := stop_alive_noinv s p hp hq
    simp [play_track, hA, hstop, hP, hU, hD]
  · have hA' : procAlive s = false := by
      cases h : procAlive s
      · rfl
      · exact absurd h hA
    simp [play_track, hA', hP, hU, hD]

/-- C4 witness: the amended theorem evaluated at the concrete live
state, a failing spawn and the source detected for the new track. -/
theorem c4_spawn_failure_state_witness :
    (play_track (fun _ => false) liveState "b.mp3" none ⟨false, 9⟩).ret = false ∧
    (play_track (fun _ => false) liveState "b.mp3" none ⟨false, 9⟩).raised = false ∧
    (play_track (fun _ => false) liveState "b.mp3" none ⟨false, 9⟩).state.current_track
      = some "b.mp3" ∧
    (play_track (fun _ => false) liveState "b.mp3" none ⟨false, 9⟩).state.current_track_title
      = some (resolved_title none "b.mp3") ∧
    (play_track (fun _ => false) liveState "b.mp3" none ⟨false, 9⟩).state.current_source
      = some ⟨"unknown", "Unknown Source", "mpv", [("path", "b.mp3")], "❓"⟩ ∧
    (play_track (fun _ => false) liveState "b.mp3" none ⟨false, 9⟩).state.volume
      = liveState.volume ∧
    (procAlive liveState = false →
      (play_track (fun _ => false) liveState "b.mp3" none ⟨false, 9⟩).state.is_playing
        = liveState.is_playing ∧
      (play_track (fun _ => false) liveState "b.mp3" none ⟨false, 9⟩).state.is_paused
        = liveState.is_paused ∧
      (play_track (fun _ => false) liveState "b.mp3" none ⟨false, 9⟩).state.position
        = liveState.position ∧
      (play_track (fun _ => false) liveState "b.mp3" none ⟨false, 9⟩).state.process
        = liveState.process ∧
      (play_track (fun _ => false) liveState "b.mp3" none ⟨false, 9⟩).state.live
        = liveState.live ∧
      (play_track (fun _ => false) liveState "b.mp3" none ⟨false, 9⟩).events = []) ∧
    (procAlive liveState = true →
      (play_track (fun _ => false) liveState "b.mp3" none ⟨false, 9⟩).events
        = [Event.stopped] ∧
      (play_track (fun _ => false) liveState "b.mp3" none ⟨false, 9⟩).state.process
        = none ∧
      (play_track (fun _ => false) liveState "b.mp3" none ⟨false, 9⟩).state.is_playing
        = false ∧
      (play_track (fun _ => false) liveState "b.mp3" none ⟨false, 9⟩).state.is_paused
        = false ∧
      (play_track (fun _ => false) liveState "b.mp3" none ⟨false, 9⟩).state.position
        = 0) :=
  c4_spawn_failure_state (fun _ => false) liveState "b.mp3" none 9
    ⟨"unknown", "Unknown Source", "mpv", [("path", "b.mp3")], "❓"⟩
    (by decide) (by decide) rfl

/-- C5 counterexample: while the agent is idle, set_volume is not a
rejected no-op — it mutates the stored volume and emits a VolumeChanged
event, contradicting the claim that every operation other than start
fails without mutation or event while Idle. -/
theorem c5_idle_set_volume_counterexample :
    idleState.is_playing = false ∧ idleState.is_paused = false ∧
    ¬ (set_volume idleState 50).2.1 = idleState ∧
    ¬ (set_volume idleState 50).2.2 = ([] : List Event) ∧
    (set_volume idleState 50).2.1.volume = 50 := by decide

/-- C5 (amended): while Idle, pause and resume return failure with no
state mutation and no event, but set_volume always succeeds: it stores
the clamped level and emits VolumeChanged regardless of the playback
state. -/
theorem c5_idle_operations (s : MusicState) (v : Int) (hP : s.is_playing = false)
    (hQ : s.is_paused = false) :
    pause s = (false, s, []) ∧ resume s = (false, s, []) ∧
    (set_volume s v).1 = max 0 (min 100 v) ∧
    (set_volume s v).2.1 = { s with volume := max 0 (min 100 v) } ∧
    (set_volume s v).2.2 = [Event.volumeChanged (max 0 (min 100 v))] := by
  refine ⟨?_, ?_, rfl, rfl, rfl⟩
  · simp [pause, hP]
  · simp [resume, hQ]

/-- C5 witness: the amended theorem evaluated at the concrete idle state
and level 50. -/
theorem c5_idle_operations_witness :
    pause idleState = (false, idleState, []) ∧
    resume idleState = (false, idleState, []) ∧
    (set_volume idleState 50).1 = max 0 (min 100 50) ∧
    (set_volume idleState 50).2.1 = { idleState with volume := max 0 (min 100 50) } ∧
    (set_volume idleState 50).2.2 = [Event.volumeChanged (max 0 (min 100 50))] :=
  c5_idle_operations idleState 50 (by decide) (by decide)

/-- C10: calling play_track with an empty uri while a process is live
returns false, but only after the live process has been stopped — the
post-state has no handle and an empty live table, and exactly one
Stopped event was emitted before the failure return. -/
theorem c10_empty_uri_stops_first (fsE : String → Bool) (s : MusicState)
    (title : Option String) (env : SpawnEnv) (hInv : ownedInvB s = true)
    (hA : procAlive s = true) :
    (play_track fsE s "" title env).ret = false ∧
    (play_track fsE s "" title env).state.process = none ∧
    (play_track fsE s "" title env).state.live = [] ∧
    (play_track fsE s "" title env).events = [Event.stopped] := by
  obtain ⟨hl, hpr, hev⟩ := stop_of_alive s hInv hA
  by_cases hP : (stop s).1.player_executable = none
  · simp [play_track, hA, hP, hl, hpr, hev]
  · simp [play_track, hA, hP, hl, hpr, hev]

/-- C10 witness: the theorem evaluated at the concrete live state. -/
theorem c10_empty_uri_stops_first_witness :
    (play_track (fun _ => false) liveState "" none ⟨true, 7⟩).ret = false ∧
    (play_track (fun _ => false) liveState "" none ⟨true, 7⟩).state.process = none ∧
    (play_track (fun _ => false) liveState "" none ⟨true, 7⟩).state.live = [] ∧
    (play_track (fun _ => false) liveState "" none ⟨true, 7⟩).events = [Event.stopped] :=
  c10_empty_uri_stops_first (fun _ => false) liveState none ⟨true, 7⟩
    (by decide) (by decide)

/-- Under the ownership invariant, after any play_track call the live
table is either empty, or the singleton of the fresh pid owned by the
new handle. -/
theorem play_track_live_shape (fsE : String → Bool) (s : MusicState) (uri : String)
    (title : Option String) (env : SpawnEnv) (hInv : ownedInvB s = true) :
    (play_track fsE s uri title env).state.live = [] ∨
    ((play_track fsE s uri title env).state.live = [env.pid] ∧
     (play_track fsE s uri title env).state.process = some env.pid) := by
  by_cases hA : procAlive s = true
  · obtain ⟨hl, hpr, hev⟩ := stop_of_alive s hInv hA
    by_cases hP : (stop s).1.player_executable = none
    · left; simp [play_track, hA, hP, hl]
    · by_cases hU : uri = ""
      · left; simp [play_track, hA, hP, hU, hl]
      · cases hD : detect_source fsE uri ((stop s).1.player_executable.getD "unknown") with
        | error e => left; simp [play_track, hA, hP, hU, hD, hl]
        | ok src =>
          by_cases hO : env.ok = true
          · right; constructor <;> simp [play_track, hA, hP, hU, hD, hO, hl]
          · left; simp [play_track, hA, hP, hU, hD, hO, hl]
  · have hA' : procAlive s = false := by
      cases h : procAlive s
      · rfl
      · exact absurd h hA
    have hl := live_nil_of_not_alive s hInv hA'
    by_cases hP : s.player_executable = none
    · left; simp [play_track, hA', hP, hl]
    · by_cases hU : uri = ""
      · left; simp [play_track, hA', hP, hU, hl]
      · cases hD : detect_source fsE uri (s.player_executable.getD "unknown") with
        | error e => left; simp [play_track, hA', hP, hU, hD, hl]
        | ok src =>
          by_cases hO : env.ok = true
          · right; constructor <;> simp [play_track, hA', hP, hU, hD, hO, hl]
          · left; simp [play_track, hA', hP, hU, hD, hO, hl]

/-- Under the ownership invariant, when a process was live at the call,
the event trace of play_track begins with the Stopped event of the old
process. -/
theorem play_track_events_stopped_head (fsE : String → Bool) (s : MusicState)
    (uri : String) (title : Option String) (env : SpawnEnv)
    (hInv : ownedInvB s = true) (hA : procAlive s = true) :
    ∃ tl, (play_track fsE s uri title env).events = Event.stopped :: tl := by
  obtain ⟨hl, hpr, hev⟩ := stop_of_alive s hInv hA
  by_cases hP : (stop s).1.player_executable = none
  · exact ⟨[], by simp [play_track, hA, hP, hev]⟩
  · by_cases hU : uri = ""
    · exact ⟨[], by simp [play_track, hA, hP, hU, hev]⟩
    · cases hD : detect_source fsE uri ((stop s).1.player_executable.getD "unknown") with
      | error e => exact ⟨[], by simp [play_track, hA, hP, hU, hD, hev]⟩
      | ok src =>
        by_cases hO : env.ok = true
        · exact ⟨[Event.playing (some (resolved_title title uri))],
            by simp [play_track, hA, hP, hU, hD, hO, hev]⟩
        · exact ⟨[], by simp [play_track, hA, hP, hU, hD, hO, hev]⟩

/-- C2: under the process-ownership invariant and a fresh spawn pid,
play_track preserves the invariant, leaves at most one live process,
kills every process that was live before the call (the old player is
stopped before the new one is spawned), and when a process was live the
event trace starts with its Stopped event. -/
theorem c2_at_most_one_live_process (fsE : String → Bool) (s : MusicState)
    (uri : String) (title : Option String) (env : SpawnEnv)
    (hInv : ownedInvB s = true) (hFresh : env.pid ∉ s.live) :
    ownedInvB (play_track fsE s uri title env).state = true ∧
    (play_track fsE s uri title env).state.live.length ≤ 1 ∧
    (∀ p, p ∈ s.live → p ∉ (play_track fsE s uri title env).state.live) ∧
    (procAlive s = true →
      ∃ tl, (play_track fsE s uri title env).events = Event.stopped :: tl) := by
  have hshape := play_track_live_shape fsE s uri title env hInv
  refine ⟨?_, ?_, ?_, ?_⟩
  · rcases hshape with h | ⟨h1, h2⟩
    · simp [ownedInvB, h]
    · simp [ownedInvB, h1, h2]
  · rcases hshape with h | ⟨h1, _⟩
    · simp [h]
    · simp [h1]
  · intro p hp
    rcases hshape with h | ⟨h1, _⟩
    · simp [h]
    · rw [h1]
      simp only [List.mem_singleton]
      intro he
      exact hFresh (he ▸ hp)
  · intro hA
    exact play_track_events_stopped_head fsE s uri title env hInv hA

/-- C2 witness: the theorem evaluated at the concrete live state with a
fresh pid. -/
theorem c2_at_most_one_live_process_witness :
    ownedInvB (play_track (fun _ => false) liveState "b.mp3" none ⟨true, 7⟩).state = true ∧
    (play_track (fun _ => false) liveState "b.mp3" none ⟨true, 7⟩).state.live.length ≤ 1 ∧
    (∀ p, p ∈ liveState.live →
      p ∉ (play_track (fun _ => false) liveState "b.mp3" none ⟨true, 7⟩).state.live) ∧
    (procAlive liveState = true →
      ∃ tl, (play_track (fun _ => false) liveState "b.mp3" none ⟨true, 7⟩).events
        = Event.stopped :: tl) :=
  c2_at_most_one_live_process (fun _ => false) liveState "b.mp3" none ⟨true, 7⟩
    (by decide) (by decide)

/-- Playlist and audio extensions are disjoint. -/
theorem audio_not_playlist (x : String) (h : playlistExts.contains x = true) :
    audioExts.contains x = false := by
  have hx : x ∈ playlistExts := by simpa using h
  simp only [playlistExts, List.mem_cons, List.not_mem_nil, or_false] at hx
  rcases hx with h1 | h1 | h1 | h1 <;> subst h1 <;> decide

/-- C7 counterexample: a playlist path and an audio path are classified
with the very same source kind, the string local_file — there is no
distinct PlaylistFile kind in the descriptor, only the file_type detail
attribute differs. -/
theorem c7_playlist_same_kind_counterexample :
    ∃ m1 m2,
      detect_source (fun _ => false) "/tmp/list.m3u" "mpv" = Except.ok m1 ∧
      detect_source (fun _ => false) "/tmp/song.mp3" "mpv" = Except.ok m2 ∧
      m1.source_type = "local_file" ∧
      m2.source_type = "local_file" ∧
      m1.source_type = m2.source_type ∧
      detailOf m1 "file_type" = some "playlist" ∧
      detailOf m2 "file_type" = some "audio" :=
  ⟨_, _, rfl, rfl, by decide, by decide, by decide, by decide, by decide⟩

/-- C7 (amended): every path that reaches the local-file branch and
carries a playlist extension is classified with source kind local_file —
the same kind as audio files — and is marked as a playlist only through
the file_type detail attribute and the clipboard icon. -/
theorem c7_playlist_file_type (fsE : String → Bool) (p player : String)
    (hUrl : (strStarts p "http://" || strStarts p "https://") = false)
    (hPath : (fsE p || strStarts p "/" || strStarts p "C:" ||
      strStarts p "\\" || strStarts p "./") = true)
    (hSuf : playlistExts.contains (strLower (pathSuffix p)) = true) :
    ∃ m, detect_source fsE p player = Except.ok m ∧
      m.source_type = "local_file" ∧
      detailOf m "file_type" = some "playlist" ∧
      m.icon = "📋" := by
  have hne : ¬ p = "" := by
    intro h
    subst h
    exact absurd hSuf (by decide)
  have hAud := audio_not_playlist _ hSuf
  have hds : detect_source fsE p player
      = Except.ok (detect_local_source fsE p player) := by
    simp [detect_source, hne, hUrl, hPath]
  have hSuf' : strLower (pathSuffix p) ∈ playlistExts := by simpa using hSuf
  have hAud' : strLower (pathSuffix p) ∉ audioExts := by simpa using hAud
  have hloc : detect_local_source fsE p player =
      ⟨"local_file", guess_local_source_name p, player,
       [("path", p), ("filename", pathName p), ("directory", pathDirname p),
        ("exists", if fsE p then "True" else "False"), ("file_type", "playlist")],
       "📋"⟩ := by
    simp [detect_local_source, hAud', hSuf']
  exact ⟨_, hds, by rw [hloc], by rw [hloc]; rfl, by rw [hloc]⟩

/-- C7 witness: the amended theorem evaluated at a concrete playlist
path. -/
theorem c7_playlist_file_type_witness :
    ∃ m, detect_source (fun _ => false) "/tmp/radio.pls" "mpv" = Except.ok m ∧
      m.source_type = "local_file" ∧
      detailOf m "file_type" = some "playlist" ∧
      m.icon = "📋" :=
  c7_playlist_file_type (fun _ => false) "/tmp/radio.pls" "mpv"
    (by decide) (by decide) (by decide)

end PersonalDJ
